import Mathlib

/-!
Verification of the midtrans payment-notification reconciler
(`HandleTransactionUpdate` in package `midtrans`) against its
natural-language specification.

The handler is embedded shallowly: the HTTP request is a record of the
fields the handler reads, every downstream collaborator (provider status
lookup, task service, order service) is an oracle carried in an `Env`
record, and the handler is a pure function from `(Env, HttpRequest)` to a
`HandlerResult` recording the HTTP status code and every RPC side effect.
-/

namespace Midtrans

/-! ## Protobuf enumerations

`tpb.OrderTaskType`, `tpb.OrderTaskState` and `opb.OrderState` from the
proto definitions. The zero value of each proto enum is `unspecified`. -/

inductive OrderTaskType where
  | unspecified
  | picking
  | packing
  | shipping
  | delivery
  | payment
  deriving DecidableEq, Repr

inductive OrderTaskState where
  | unspecified
  | pending
  | ongoing
  | success
  | failed
  deriving DecidableEq, Repr

inductive OrderState where
  | unspecified
  | pending
  | paid
  | cancelled
  | done
  deriving DecidableEq, Repr

/-- Proto message `tpb.OrderTask`; the zero value has empty strings and
`unspecified` enum fields. -/
structure OrderTask where
  taskId : String := ""
  orderId : String := ""
  taskType : OrderTaskType := OrderTaskType.unspecified
  state : OrderTaskState := OrderTaskState.unspecified
  deriving DecidableEq, Repr

/-- Proto message `opb.Order`, restricted to the one field the handler reads. -/
structure Order where
  state : OrderState := OrderState.unspecified
  deriving DecidableEq, Repr

/-! ## Request payload -/

/-- Payload type `UpdateTransactionRequest` from the midtrans package: all data of a
charge response / payment notification, every field a string. -/
structure UpdateTransactionRequest where
  transactionTime : String := ""
  transactionStatus : String := ""
  transactionID : String := ""
  statusMessage : String := ""
  statusCode : String := ""
  signatureKey : String := ""
  settlementTime : String := ""
  paymentType : String := ""
  orderID : String := ""
  merchantID : String := ""
  grossAmount : String := ""
  fraudStatus : String := ""
  currency : String := ""
  deriving DecidableEq, Repr

/-! ## Constants from the midtrans package -/

def PendingTransactionStatus : String := "pending"
def AuthorizedTransactionStatus : String := "authorized"
def CaptureTransactionStatus : String := "capture"
def SettlementTransactionStatus : String := "settlement"
def DenyTransactionStatus : String := "deny"
def CancelTransactionStatus : String := "cancel"
def RefundTransactionStatus : String := "refund"
def PartialRefundTransactionStatus : String := "partial_refund"
def ChargebackTransactionStatus : String := "chargeback"
def PartialChargebackTransactionStatus : String := "partial_chargeback"
def ExpireTransactionStatus : String := "expire"
def FailureTransactionStatus : String := "failure"

def FraudStatusAccept : String := "accept"

/-- Embedding of `strings.ToLower` as used by the handler: lowercase the
string character by character (every status string involved is ASCII). -/
def toLower (s : String) : String := ⟨s.data.map Char.toLower⟩

/-! ## Collaborators outside the repository snapshot -/

/-- Modelled from the spec: the payment package's `PaymentMethod_Gopay`
constant (the supported e-wallet method); its literal value is not in the
snapshot, only that it is one of two supported payment-type strings. -/
def PaymentMethod_Gopay : String := "gopay"

/-- Modelled from the spec: the payment package's
`PaymentMethod_VirtualAccount` constant (the supported virtual-account
transfer method). -/
def PaymentMethod_VirtualAccount : String := "bank_transfer"

/-- Modelled from the spec: `auth.ValidateCallbackSignature` recomputes
the expected signature as a keyed hash of (`orderId`, `statusCode`,
`grossAmount`, server key) and compares it with the supplied
`signatureKey`. The keyed-hash function itself is a parameter `hash`. -/
def ValidateCallbackSignature (hash : String → String)
    (signatureKey orderId statusCode grossAmount serverKey : String) : Bool :=
  signatureKey == hash (orderId ++ statusCode ++ grossAmount ++ serverKey)

/-! ## Header validation (`validate.go`) -/

inductive HeaderError where
  | contentTypeRequired
  | invalidContentType
  deriving DecidableEq, Repr

/-- Header gate `validateHeaders`: the midtrans variant checks only Content-Type; an
absent header reads as the empty string. -/
def validateHeaders (contentType : String) : Option HeaderError :=
  if contentType = "" then some HeaderError.contentTypeRequired
  else if contentType ≠ "application/json" then some HeaderError.invalidContentType
  else none

/-! ## Environment: oracle results of every downstream collaborator -/

/-- Results the downstream collaborators would return this request.
`updateOrderTaskOk s` tells whether an `UpdateOrderTask` RPC carrying
target state `s` succeeds. -/
structure Env where
  newTransactionOk : Bool
  getTransactionStatus : Except Unit UpdateTransactionRequest
  getOrderTask : Except Unit (List OrderTask)
  orderGet : Except Unit Order
  updateOrderTaskOk : OrderTaskState → Bool

/-- Dispatch `initializeTransactionGetter`: branch on `paymentType`; a supported
method yields a getter when `transaction.NewTransaction` succeeds, any
other method yields `ErrUnsupportedPaymentMethod`. The result is whether
a getter was obtained without error. -/
def initializeTransactionGetter (env : Env) (paymentType : String) : Bool :=
  if paymentType = PaymentMethod_Gopay ∨ paymentType = PaymentMethod_VirtualAccount then
    env.newTransactionOk
  else
    false

/-- Selection of the payment task: `orderTask` starts as the proto zero
value and is replaced by the first task of type payment, mirroring the
`for`/`break` loop in the handler. -/
def findPaymentTask : List OrderTask → OrderTask
  | [] => {}
  | t :: ts => if t.taskType = OrderTaskType.payment then t else findPaymentTask ts

/-! ## The handler -/

/-- The observable part of an HTTP request that the handler reads. An
absent Content-Type header is the empty string; a body that fails to
decode is `none`. -/
structure HttpRequest where
  method : String
  contentType : String
  body : Option UpdateTransactionRequest

/-- Everything observable about one handler run: the HTTP status written,
the `UpdateOrderTask` RPC calls attempted (task id and target state, in
order), whether each read RPC was issued, and whether the non-POST method
error was logged. -/
structure HandlerResult where
  status : Nat
  updateCalls : List (String × OrderTaskState)
  calledGetTransactionStatus : Bool
  calledGetOrderTask : Bool
  calledOrderGet : Bool
  methodErrorLogged : Bool
  deriving DecidableEq, Repr

/-- The final `switch` of the handler together with the `updateFn`
closure: classify the lowercased authoritative transaction status and
attempt the corresponding `UpdateOrderTask` writes. Returns the HTTP
status written and the list of attempted writes, in order. -/
def classifyAndUpdate (updateOk : OrderTaskState → Bool)
    (trx : UpdateTransactionRequest) (taskId : String) :
    Nat × List (String × OrderTaskState) :=
  let s := toLower trx.transactionStatus
  if s = CaptureTransactionStatus ∨ s = SettlementTransactionStatus then
    if trx.fraudStatus ≠ "" ∧ toLower trx.fraudStatus ≠ FraudStatusAccept then
      if updateOk OrderTaskState.failed then
        if updateOk OrderTaskState.success then
          (200, [(taskId, OrderTaskState.failed), (taskId, OrderTaskState.success)])
        else
          (500, [(taskId, OrderTaskState.failed), (taskId, OrderTaskState.success)])
      else
        (500, [(taskId, OrderTaskState.failed)])
    else
      if updateOk OrderTaskState.success then
        (200, [(taskId, OrderTaskState.success)])
      else
        (500, [(taskId, OrderTaskState.success)])
  else if s = ExpireTransactionStatus ∨ s = FailureTransactionStatus ∨
      s = CancelTransactionStatus ∨ s = DenyTransactionStatus then
    if updateOk OrderTaskState.failed then
      (200, [(taskId, OrderTaskState.failed)])
    else
      (500, [(taskId, OrderTaskState.failed)])
  else
    (200, [])

/-- The handler `HandleTransactionUpdate`, step for step from the source: the method
check only logs; header, body-decode and signature gates answer 400;
pending short-circuits with 200; unsupported payment type or a failed
getter construction answers 500; a failed provider lookup answers 400; a
failed task or order RPC answers 500; a task already in success answers
200 without writes; a terminal order state answers 400 without writes;
then the status classification (`classifyAndUpdate`) drives zero, one or
two `UpdateOrderTask` writes, a failed write answering 500. -/
def HandleTransactionUpdate (hash : String → String) (serverKey : String)
    (env : Env) (r : HttpRequest) : HandlerResult :=
  let logged := r.method ≠ "POST"
  let mk : Nat → List (String × OrderTaskState) → Bool → Bool → Bool → HandlerResult :=
    fun st calls gts got og =>
      { status := st, updateCalls := calls, calledGetTransactionStatus := gts,
        calledGetOrderTask := got, calledOrderGet := og, methodErrorLogged := logged }
  if (validateHeaders r.contentType).isSome then
    mk 400 [] false false false
  else
    match r.body with
    | none => mk 400 [] false false false
    | some req =>
      if ValidateCallbackSignature hash req.signatureKey req.orderID
          req.statusCode req.grossAmount serverKey = false then
        mk 400 [] false false false
      else if toLower req.transactionStatus = PendingTransactionStatus then
        mk 200 [] false false false
      else if initializeTransactionGetter env req.paymentType = false then
        mk 500 [] false false false
      else
        match env.getTransactionStatus with
        | Except.error _ => mk 400 [] true false false
        | Except.ok trx =>
          match env.getOrderTask with
          | Except.error _ => mk 500 [] true true false
          | Except.ok tasks =>
            let orderTask := findPaymentTask tasks
            if orderTask.state = OrderTaskState.success then
              mk 200 [] true true false
            else
              match env.orderGet with
              | Except.error _ => mk 500 [] true true true
              | Except.ok order =>
                if order.state = OrderState.paid ∨ order.state = OrderState.cancelled ∨
                    order.state = OrderState.done then
                  mk 400 [] true true true
                else
                  let res := classifyAndUpdate env.updateOrderTaskOk trx orderTask.taskId
                  mk res.1 res.2 true true true

/-! ## Reachability predicates, bundling the gates a run must pass -/

/-- The request clears every local gate before the downstream section:
headers valid, body decoded, signature valid, status not pending, and a
transaction getter obtained for the payment type. -/
def PassesPreGates (hash : String → String) (serverKey : String)
    (env : Env) (r : HttpRequest) (req : UpdateTransactionRequest) : Prop :=
  validateHeaders r.contentType = none ∧
  r.body = some req ∧
  ValidateCallbackSignature hash req.signatureKey req.orderID
    req.statusCode req.grossAmount serverKey = true ∧
  toLower req.transactionStatus ≠ PendingTransactionStatus ∧
  initializeTransactionGetter env req.paymentType = true

/-- The run reaches the status-classification switch: it passes the
pre-gates, the provider lookup returns `trx`, the task lookup returns
`tasks` whose payment task is not already successful, and the order
lookup returns `order` in a non-terminal state. -/
def ReachesClassification (hash : String → String) (serverKey : String)
    (env : Env) (r : HttpRequest) (req trx : UpdateTransactionRequest)
    (tasks : List OrderTask) (order : Order) : Prop :=
  PassesPreGates hash serverKey env r req ∧
  env.getTransactionStatus = Except.ok trx ∧
  env.getOrderTask = Except.ok tasks ∧
  (findPaymentTask tasks).state ≠ OrderTaskState.success ∧
  env.orderGet = Except.ok order ∧
  ¬ (order.state = OrderState.paid ∨ order.state = OrderState.cancelled ∨
     order.state = OrderState.done)

/-- The externally observable effects of a run: HTTP status, attempted
writes, and which read RPCs were issued — everything except the
method-mismatch log line. -/
def HandlerResult.effects (res : HandlerResult) :
    Nat × List (String × OrderTaskState) × Bool × Bool × Bool :=
  (res.status, res.updateCalls, res.calledGetTransactionStatus,
   res.calledGetOrderTask, res.calledOrderGet)

/-! ## Concrete inputs used to witness the theorems -/

/-- A keyed-hash oracle under which the expected signature of every
payload is the fixed string below. -/
def wHash : String → String := fun _ => "valid-signature"

def wServerKey : String := "server-key"

/-- A well-formed notification payload: settlement status, supported
payment type, signature matching `wHash`. -/
def wReq : UpdateTransactionRequest :=
  { transactionStatus := "settlement", transactionID := "trx-1", statusCode := "200",
    signatureKey := "valid-signature", paymentType := "gopay", orderID := "task-1",
    grossAmount := "10000.00" }

/-- The same payload with a tampered signature. -/
def wBadReq : UpdateTransactionRequest := { wReq with signatureKey := "tampered" }

/-- The same payload reporting a pending transaction. -/
def wPendingReq : UpdateTransactionRequest := { wReq with transactionStatus := "pending" }

/-- A POST request carrying the given payload with valid headers. -/
def wPost (req : UpdateTransactionRequest) : HttpRequest :=
  { method := "POST", contentType := "application/json", body := some req }

/-- The payment task of the order, still ongoing. -/
def wTask : OrderTask :=
  { taskId := "task-1", orderId := "order-1", taskType := OrderTaskType.payment,
    state := OrderTaskState.ongoing }

def wOrder : Order := { state := OrderState.pending }

/-- Authoritative answer: settlement, fraud accepted. -/
def wTrxSettle : UpdateTransactionRequest := { wReq with fraudStatus := "accept" }

/-- Authoritative answer: capture flagged by the fraud-detection system. -/
def wTrxFraud : UpdateTransactionRequest :=
  { wReq with transactionStatus := "capture", fraudStatus := "deny" }

/-- Authoritative answer: expired transaction. -/
def wTrxExpire : UpdateTransactionRequest := { wReq with transactionStatus := "expire" }

/-- Authoritative answer: a refund, outside the actionable statuses. -/
def wTrxRefund : UpdateTransactionRequest := { wReq with transactionStatus := "refund" }

/-- Environment in which every downstream collaborator succeeds and the
authoritative status is a clean settlement. -/
def wEnvOk : Env :=
  { newTransactionOk := true, getTransactionStatus := Except.ok wTrxSettle,
    getOrderTask := Except.ok [wTask], orderGet := Except.ok wOrder,
    updateOrderTaskOk := fun _ => true }

def wEnvFraud : Env := { wEnvOk with getTransactionStatus := Except.ok wTrxFraud }

def wEnvExpire : Env := { wEnvOk with getTransactionStatus := Except.ok wTrxExpire }

def wEnvRefund : Env := { wEnvOk with getTransactionStatus := Except.ok wTrxRefund }

/-- Environment in which the `UpdateOrderTask` write RPC fails. -/
def wEnvWriteFail : Env := { wEnvOk with updateOrderTaskOk := fun _ => false }

/-- Environment in which the provider status lookup fails. -/
def wEnvLookupFail : Env := { wEnvOk with getTransactionStatus := Except.error () }

/-- Environment in which the task-list RPC fails. -/
def wEnvTaskFail : Env := { wEnvOk with getOrderTask := Except.error () }

/-- Environment in which the order-read RPC fails. -/
def wEnvOrderFail : Env := { wEnvOk with orderGet := Except.error () }

/-- Environment in which the expire write path hits a failing write RPC. -/
def wEnvExpireWriteFail : Env :=
  { wEnvExpire with updateOrderTaskOk := fun _ => false }

/-- Task list whose payment task is already successful. -/
def wTaskDone : OrderTask := { wTask with state := OrderTaskState.success }

def wEnvTaskDone : Env := { wEnvOk with getOrderTask := Except.ok [wTaskDone] }

/-- Environment whose order has already concluded. -/
def wEnvOrderDone : Env := { wEnvOk with orderGet := Except.ok { state := OrderState.done } }

end Midtrans

namespace Midtrans

/-! ## Helper lemmas -/

/-- A run that reaches the status classification produces exactly the
classification's status and writes, with all three read RPCs issued. -/
theorem handle_eq_of_reaches (hash : String → String) (serverKey : String)
    (env : Env) (r : HttpRequest) (req trx : UpdateTransactionRequest)
    (tasks : List OrderTask) (order : Order)
    (hreach : ReachesClassification hash serverKey env r req trx tasks order) :
    HandleTransactionUpdate hash serverKey env r =
      { status := (classifyAndUpdate env.updateOrderTaskOk trx (findPaymentTask tasks).taskId).1,
        updateCalls := (classifyAndUpdate env.updateOrderTaskOk trx (findPaymentTask tasks).taskId).2,
        calledGetTransactionStatus := true,
        calledGetOrderTask := true,
        calledOrderGet := true,
        methodErrorLogged := r.method ≠ "POST" } := by
  obtain ⟨⟨hct, hbody, hsig, hpend, hinit⟩, hgts, hgot, htask, hog, hterm⟩ := hreach
  simp only [HandleTransactionUpdate, hct, hbody, hsig, hinit, hgts, hgot, hog,
    Option.isSome_none, Bool.false_eq_true, Bool.true_eq_false, if_false, if_neg hpend]
  rw [if_neg htask, if_neg hterm]

/-- Bound on writes performed by the classification switch. -/
theorem classifyAndUpdate_length_le_two (u : OrderTaskState → Bool)
    (trx : UpdateTransactionRequest) (tid : String) :
    (classifyAndUpdate u trx tid).2.length ≤ 2 := by
  unfold classifyAndUpdate
  dsimp only
  repeat' split
  all_goals simp

/-- Global bound: a single request attempts at most two task-state
writes, whatever the environment and request. -/
theorem updateCalls_length_le_two (hash : String → String) (serverKey : String)
    (env : Env) (r : HttpRequest) :
    (HandleTransactionUpdate hash serverKey env r).updateCalls.length ≤ 2 := by
  unfold HandleTransactionUpdate
  dsimp only
  repeat' split
  all_goals simp [classifyAndUpdate_length_le_two]

/-- Capture/settlement with a rejected fraud status: the failed write is
attempted and, when it succeeds, the success write follows at once. -/
theorem classifyAndUpdate_fraud (u : OrderTaskState → Bool)
    (trx : UpdateTransactionRequest) (tid : String)
    (hs : toLower trx.transactionStatus = CaptureTransactionStatus ∨
          toLower trx.transactionStatus = SettlementTransactionStatus)
    (hf1 : trx.fraudStatus ≠ "") (hf2 : toLower trx.fraudStatus ≠ FraudStatusAccept)
    (hu : u OrderTaskState.failed = true) :
    (classifyAndUpdate u trx tid).2 =
      [(tid, OrderTaskState.failed), (tid, OrderTaskState.success)] := by
  unfold classifyAndUpdate
  dsimp only
  rw [if_pos hs, if_pos ⟨hf1, hf2⟩, if_pos hu]
  cases h : u OrderTaskState.success <;> simp [h]

/-- Capture/settlement with fraud absent or accepted: exactly the success
write is attempted; it answers 200 exactly when the write RPC succeeds. -/
theorem classifyAndUpdate_clean (u : OrderTaskState → Bool)
    (trx : UpdateTransactionRequest) (tid : String)
    (hs : toLower trx.transactionStatus = CaptureTransactionStatus ∨
          toLower trx.transactionStatus = SettlementTransactionStatus)
    (hf : trx.fraudStatus = "" ∨ toLower trx.fraudStatus = FraudStatusAccept) :
    classifyAndUpdate u trx tid =
      (if u OrderTaskState.success = true then 200 else 500,
       [(tid, OrderTaskState.success)]) := by
  have hf' : ¬ (trx.fraudStatus ≠ "" ∧ toLower trx.fraudStatus ≠ FraudStatusAccept) := by
    rcases hf with h | h <;> simp [h]
  unfold classifyAndUpdate
  dsimp only
  rw [if_pos hs, if_neg hf']
  cases h : u OrderTaskState.success <;> simp [h]

/-- Expire/failure/cancel/deny: exactly the failed write is attempted; it
answers 200 exactly when the write RPC succeeds. -/
theorem classifyAndUpdate_failed (u : OrderTaskState → Bool)
    (trx : UpdateTransactionRequest) (tid : String)
    (hs : toLower trx.transactionStatus = ExpireTransactionStatus ∨
          toLower trx.transactionStatus = FailureTransactionStatus ∨
          toLower trx.transactionStatus = CancelTransactionStatus ∨
          toLower trx.transactionStatus = DenyTransactionStatus) :
    classifyAndUpdate u trx tid =
      (if u OrderTaskState.failed = true then 200 else 500,
       [(tid, OrderTaskState.failed)]) := by
  have hcs : ¬ (toLower trx.transactionStatus = CaptureTransactionStatus ∨
      toLower trx.transactionStatus = SettlementTransactionStatus) := by
    rcases hs with h | h | h | h <;> rw [h] <;> decide
  unfold classifyAndUpdate
  dsimp only
  rw [if_neg hcs, if_pos hs]
  cases h : u OrderTaskState.failed <;> simp [h]

/-- A status outside the six actionable ones: no write, 200. -/
theorem classifyAndUpdate_other (u : OrderTaskState → Bool)
    (trx : UpdateTransactionRequest) (tid : String)
    (hs : toLower trx.transactionStatus ∉
      [CaptureTransactionStatus, SettlementTransactionStatus, ExpireTransactionStatus,
       FailureTransactionStatus, CancelTransactionStatus, DenyTransactionStatus]) :
    classifyAndUpdate u trx tid = (200, []) := by
  simp only [List.mem_cons, List.not_mem_nil, or_false, not_or] at hs
  obtain ⟨h1, h2, h3, h4, h5, h6⟩ := hs
  unfold classifyAndUpdate
  dsimp only
  rw [if_neg (by tauto), if_neg (by tauto)]

end Midtrans

namespace Midtrans

/-! ## Claims -/

/-- C1: for every notification that reaches the status classification
with an authoritative status of capture or settlement (case-insensitive)
and a non-empty fraud status other than accept (case-insensitive), the
handler first writes task state FAILED and immediately afterwards also
writes task state SUCCESS; moreover any single request attempts at most
two task-state writes. -/
theorem C1_fraud_failed_then_success (hash : String → String) (serverKey : String)
    (env : Env) (r : HttpRequest) (req trx : UpdateTransactionRequest)
    (tasks : List OrderTask) (order : Order)
    (hreach : ReachesClassification hash serverKey env r req trx tasks order)
    (hs : toLower trx.transactionStatus = CaptureTransactionStatus ∨
          toLower trx.transactionStatus = SettlementTransactionStatus)
    (hf1 : trx.fraudStatus ≠ "")
    (hf2 : toLower trx.fraudStatus ≠ FraudStatusAccept)
    (hupd : env.updateOrderTaskOk OrderTaskState.failed = true) :
    (HandleTransactionUpdate hash serverKey env r).updateCalls =
      [((findPaymentTask tasks).taskId, OrderTaskState.failed),
       ((findPaymentTask tasks).taskId, OrderTaskState.success)] ∧
    ∀ (env' : Env) (r' : HttpRequest),
      (HandleTransactionUpdate hash serverKey env' r').updateCalls.length ≤ 2 := by
  refine ⟨?_, fun env' r' => updateCalls_length_le_two hash serverKey env' r'⟩
  rw [handle_eq_of_reaches hash serverKey env r req trx tasks order hreach]
  exact classifyAndUpdate_fraud env.updateOrderTaskOk trx (findPaymentTask tasks).taskId
    hs hf1 hf2 hupd

/-- Witness for C1: a capture notification whose fraud status is deny
produces the FAILED write followed by the SUCCESS write. -/
theorem C1_witness :
    (HandleTransactionUpdate wHash wServerKey wEnvFraud (wPost wReq)).updateCalls =
      [("task-1", OrderTaskState.failed), ("task-1", OrderTaskState.success)] ∧
    ∀ (env' : Env) (r' : HttpRequest),
      (HandleTransactionUpdate wHash wServerKey env' r').updateCalls.length ≤ 2 :=
  C1_fraud_failed_then_success wHash wServerKey wEnvFraud (wPost wReq) wReq wTrxFraud
    [wTask] wOrder
    ⟨⟨by decide, rfl, by decide, by decide, by decide⟩, rfl, rfl, by decide, rfl, by decide⟩
    (by decide) (by decide) (by decide) rfl

/-- C2: a notification whose signature does not match the keyed hash of
(orderId, statusCode, grossAmount, server key) is answered 400 with no
provider lookup, no task read, no order read and no write. -/
theorem C2_bad_signature_no_side_effects (hash : String → String) (serverKey : String)
    (env : Env) (r : HttpRequest) (req : UpdateTransactionRequest)
    (hbody : r.body = some req)
    (hsig : ValidateCallbackSignature hash req.signatureKey req.orderID
      req.statusCode req.grossAmount serverKey = false) :
    (HandleTransactionUpdate hash serverKey env r).status = 400 ∧
    (HandleTransactionUpdate hash serverKey env r).calledGetTransactionStatus = false ∧
    (HandleTransactionUpdate hash serverKey env r).calledGetOrderTask = false ∧
    (HandleTransactionUpdate hash serverKey env r).calledOrderGet = false ∧
    (HandleTransactionUpdate hash serverKey env r).updateCalls = [] := by
  unfold HandleTransactionUpdate
  dsimp only
  by_cases h : (validateHeaders r.contentType).isSome <;> simp [h, hbody, hsig]

/-- Witness for C2: the tampered signature is rejected without any
downstream call. -/
theorem C2_witness :
    (HandleTransactionUpdate wHash wServerKey wEnvOk (wPost wBadReq)).status = 400 ∧
    (HandleTransactionUpdate wHash wServerKey wEnvOk (wPost wBadReq)).calledGetTransactionStatus
      = false ∧
    (HandleTransactionUpdate wHash wServerKey wEnvOk (wPost wBadReq)).calledGetOrderTask
      = false ∧
    (HandleTransactionUpdate wHash wServerKey wEnvOk (wPost wBadReq)).calledOrderGet = false ∧
    (HandleTransactionUpdate wHash wServerKey wEnvOk (wPost wBadReq)).updateCalls = [] :=
  C2_bad_signature_no_side_effects wHash wServerKey wEnvOk (wPost wBadReq) wBadReq
    rfl (by decide)


/-- Counterexample to C3 as stated: every gate passes, the authoritative
status is settlement with fraud accepted, exactly one SUCCESS write is
attempted — but the write RPC fails and the response is 500, not the
claimed 200. -/
theorem C3_counterexample :
    ReachesClassification wHash wServerKey wEnvWriteFail (wPost wReq) wReq wTrxSettle
      [wTask] wOrder ∧
    toLower wTrxSettle.transactionStatus = SettlementTransactionStatus ∧
    toLower wTrxSettle.fraudStatus = FraudStatusAccept ∧
    (HandleTransactionUpdate wHash wServerKey wEnvWriteFail (wPost wReq)).updateCalls =
      [("task-1", OrderTaskState.success)] ∧
    (HandleTransactionUpdate wHash wServerKey wEnvWriteFail (wPost wReq)).status = 500 :=
  ⟨⟨⟨by decide, rfl, by decide, by decide, by decide⟩, rfl, rfl, by decide, rfl, by decide⟩,
   by decide, by decide, by decide, by decide⟩

/-- C3 (amended): for every notification that passes all gates with an
authoritative status of settlement (or capture) and fraud status absent
or accept, exactly one UpdateOrderTask call is made, with state SUCCESS,
and when that write succeeds the response is 200. -/
theorem C3_settlement_one_success_write (hash : String → String) (serverKey : String)
    (env : Env) (r : HttpRequest) (req trx : UpdateTransactionRequest)
    (tasks : List OrderTask) (order : Order)
    (hreach : ReachesClassification hash serverKey env r req trx tasks order)
    (hs : toLower trx.transactionStatus = SettlementTransactionStatus ∨
          toLower trx.transactionStatus = CaptureTransactionStatus)
    (hf : trx.fraudStatus = "" ∨ toLower trx.fraudStatus = FraudStatusAccept) :
    (HandleTransactionUpdate hash serverKey env r).updateCalls =
      [((findPaymentTask tasks).taskId, OrderTaskState.success)] ∧
    (env.updateOrderTaskOk OrderTaskState.success = true →
      (HandleTransactionUpdate hash serverKey env r).status = 200) := by
  rw [handle_eq_of_reaches hash serverKey env r req trx tasks order hreach]
  rw [classifyAndUpdate_clean env.updateOrderTaskOk trx (findPaymentTask tasks).taskId
    hs.symm hf]
  exact ⟨rfl, fun h => by simp [h]⟩

/-- Witness for C3 (amended): the clean settlement produces one SUCCESS
write and a 200 response. -/
theorem C3_witness :
    (HandleTransactionUpdate wHash wServerKey wEnvOk (wPost wReq)).updateCalls =
      [("task-1", OrderTaskState.success)] ∧
    (wEnvOk.updateOrderTaskOk OrderTaskState.success = true →
      (HandleTransactionUpdate wHash wServerKey wEnvOk (wPost wReq)).status = 200) :=
  C3_settlement_one_success_write wHash wServerKey wEnvOk (wPost wReq) wReq wTrxSettle
    [wTask] wOrder
    ⟨⟨by decide, rfl, by decide, by decide, by decide⟩, rfl, rfl, by decide, rfl, by decide⟩
    (by decide) (by decide)

/-- C4: for every notification that reaches the status classification
with an authoritative status among expire, failure, cancel, deny
(case-insensitive), exactly one UpdateOrderTask call is made, with state
FAILED, and on write success the response is 200. -/
theorem C4_failure_statuses_one_failed_write (hash : String → String) (serverKey : String)
    (env : Env) (r : HttpRequest) (req trx : UpdateTransactionRequest)
    (tasks : List OrderTask) (order : Order)
    (hreach : ReachesClassification hash serverKey env r req trx tasks order)
    (hs : toLower trx.transactionStatus = ExpireTransactionStatus ∨
          toLower trx.transactionStatus = FailureTransactionStatus ∨
          toLower trx.transactionStatus = CancelTransactionStatus ∨
          toLower trx.transactionStatus = DenyTransactionStatus) :
    (HandleTransactionUpdate hash serverKey env r).updateCalls =
      [((findPaymentTask tasks).taskId, OrderTaskState.failed)] ∧
    (env.updateOrderTaskOk OrderTaskState.failed = true →
      (HandleTransactionUpdate hash serverKey env r).status = 200) := by
  rw [handle_eq_of_reaches hash serverKey env r req trx tasks order hreach]
  rw [classifyAndUpdate_failed env.updateOrderTaskOk trx (findPaymentTask tasks).taskId hs]
  exact ⟨rfl, fun h => by simp [h]⟩

/-- Witness for C4: an expired transaction yields the single FAILED write
and a 200 response. -/
theorem C4_witness :
    (HandleTransactionUpdate wHash wServerKey wEnvExpire (wPost wReq)).updateCalls =
      [("task-1", OrderTaskState.failed)] ∧
    (wEnvExpire.updateOrderTaskOk OrderTaskState.failed = true →
      (HandleTransactionUpdate wHash wServerKey wEnvExpire (wPost wReq)).status = 200) :=
  C4_failure_statuses_one_failed_write wHash wServerKey wEnvExpire (wPost wReq) wReq
    wTrxExpire [wTask] wOrder
    ⟨⟨by decide, rfl, by decide, by decide, by decide⟩, rfl, rfl, by decide, rfl, by decide⟩
    (by decide)


/-- C5: a notification whose resolved order is already paid, cancelled or
done is answered 400 with zero UpdateOrderTask calls, whatever the
authoritative transaction status. -/
theorem C5_terminal_order_rejected (hash : String → String) (serverKey : String)
    (env : Env) (r : HttpRequest) (req trx : UpdateTransactionRequest)
    (tasks : List OrderTask) (order : Order)
    (hpre : PassesPreGates hash serverKey env r req)
    (hgts : env.getTransactionStatus = Except.ok trx)
    (hgot : env.getOrderTask = Except.ok tasks)
    (htask : (findPaymentTask tasks).state ≠ OrderTaskState.success)
    (hog : env.orderGet = Except.ok order)
    (hterm : order.state = OrderState.paid ∨ order.state = OrderState.cancelled ∨
             order.state = OrderState.done) :
    (HandleTransactionUpdate hash serverKey env r).status = 400 ∧
    (HandleTransactionUpdate hash serverKey env r).updateCalls = [] := by
  obtain ⟨hct, hbody, hsig, hpend, hinit⟩ := hpre
  simp only [HandleTransactionUpdate, hct, hbody, hsig, hinit, hgts, hgot, hog,
    Option.isSome_none, Bool.false_eq_true, Bool.true_eq_false, if_false, if_neg hpend]
  rw [if_neg htask, if_pos hterm]
  exact ⟨rfl, rfl⟩

/-- Witness for C5: an order already done makes even a clean settlement a
400 no-op. -/
theorem C5_witness :
    (HandleTransactionUpdate wHash wServerKey wEnvOrderDone (wPost wReq)).status = 400 ∧
    (HandleTransactionUpdate wHash wServerKey wEnvOrderDone (wPost wReq)).updateCalls = [] :=
  C5_terminal_order_rejected wHash wServerKey wEnvOrderDone (wPost wReq) wReq wTrxSettle
    [wTask] { state := OrderState.done }
    ⟨by decide, rfl, by decide, by decide, by decide⟩ rfl rfl (by decide) rfl (by decide)

/-- C6: a notification whose resolved payment task is already SUCCESS is
answered 200 and UpdateOrderTask is never called: duplicate delivery of a
finalized notification is a write-free no-op. -/
theorem C6_already_success_noop (hash : String → String) (serverKey : String)
    (env : Env) (r : HttpRequest) (req trx : UpdateTransactionRequest)
    (tasks : List OrderTask)
    (hpre : PassesPreGates hash serverKey env r req)
    (hgts : env.getTransactionStatus = Except.ok trx)
    (hgot : env.getOrderTask = Except.ok tasks)
    (hsucc : (findPaymentTask tasks).state = OrderTaskState.success) :
    (HandleTransactionUpdate hash serverKey env r).status = 200 ∧
    (HandleTransactionUpdate hash serverKey env r).updateCalls = [] := by
  obtain ⟨hct, hbody, hsig, hpend, hinit⟩ := hpre
  simp only [HandleTransactionUpdate, hct, hbody, hsig, hinit, hgts, hgot,
    Option.isSome_none, Bool.false_eq_true, Bool.true_eq_false, if_false, if_neg hpend]
  rw [if_pos hsucc]
  exact ⟨rfl, rfl⟩

/-- Witness for C6: redelivery against an already successful payment task
is ignored with a 200. -/
theorem C6_witness :
    (HandleTransactionUpdate wHash wServerKey wEnvTaskDone (wPost wReq)).status = 200 ∧
    (HandleTransactionUpdate wHash wServerKey wEnvTaskDone (wPost wReq)).updateCalls = [] :=
  C6_already_success_noop wHash wServerKey wEnvTaskDone (wPost wReq) wReq wTrxSettle
    [wTaskDone]
    ⟨by decide, rfl, by decide, by decide, by decide⟩ rfl rfl (by decide)

/-- C7: a notification with valid headers, body and signature whose
transaction status lowercases to pending is answered 200 immediately:
no provider lookup, no task read, no order read, no write — and the
result does not depend on the payment type. -/
theorem C7_pending_short_circuit (hash : String → String) (serverKey : String)
    (env : Env) (r : HttpRequest) (req : UpdateTransactionRequest)
    (hct : validateHeaders r.contentType = none)
    (hbody : r.body = some req)
    (hsig : ValidateCallbackSignature hash req.signatureKey req.orderID
      req.statusCode req.grossAmount serverKey = true)
    (hpend : toLower req.transactionStatus = PendingTransactionStatus) :
    (HandleTransactionUpdate hash serverKey env r).status = 200 ∧
    (HandleTransactionUpdate hash serverKey env r).updateCalls = [] ∧
    (HandleTransactionUpdate hash serverKey env r).calledGetTransactionStatus = false ∧
    (HandleTransactionUpdate hash serverKey env r).calledGetOrderTask = false ∧
    (HandleTransactionUpdate hash serverKey env r).calledOrderGet = false ∧
    ∀ pt : String,
      HandleTransactionUpdate hash serverKey env
          { r with body := some { req with paymentType := pt } } =
        HandleTransactionUpdate hash serverKey env r := by
  refine ⟨?_, ?_, ?_, ?_, ?_, ?_⟩ <;>
    simp [HandleTransactionUpdate, hct, hbody, hsig, hpend]

/-- Witness for C7: a pending notification short-circuits to 200 with no
downstream calls. -/
theorem C7_witness :
    (HandleTransactionUpdate wHash wServerKey wEnvOk (wPost wPendingReq)).status = 200 ∧
    (HandleTransactionUpdate wHash wServerKey wEnvOk (wPost wPendingReq)).updateCalls = [] ∧
    (HandleTransactionUpdate wHash wServerKey wEnvOk
      (wPost wPendingReq)).calledGetTransactionStatus = false ∧
    (HandleTransactionUpdate wHash wServerKey wEnvOk
      (wPost wPendingReq)).calledGetOrderTask = false ∧
    (HandleTransactionUpdate wHash wServerKey wEnvOk
      (wPost wPendingReq)).calledOrderGet = false ∧
    ∀ pt : String,
      HandleTransactionUpdate wHash wServerKey wEnvOk
          { wPost wPendingReq with body := some { wPendingReq with paymentType := pt } } =
        HandleTransactionUpdate wHash wServerKey wEnvOk (wPost wPendingReq) :=
  C7_pending_short_circuit wHash wServerKey wEnvOk (wPost wPendingReq) wPendingReq
    (by decide) rfl (by decide) (by decide)


/-- C8: a failed provider status lookup is answered 400 — not 500 — with
no task or order RPC and no write, while a failure of any internal RPC
(task lookup, order read, task update) is answered 500. -/
theorem C8_failure_status_codes (hash : String → String) (serverKey : String)
    (env₁ : Env) (r₁ : HttpRequest) (req₁ : UpdateTransactionRequest)
    (hpre₁ : PassesPreGates hash serverKey env₁ r₁ req₁)
    (hgts₁ : env₁.getTransactionStatus = Except.error ())
    (env₂ : Env) (r₂ : HttpRequest) (req₂ trx₂ : UpdateTransactionRequest)
    (hpre₂ : PassesPreGates hash serverKey env₂ r₂ req₂)
    (hgts₂ : env₂.getTransactionStatus = Except.ok trx₂)
    (hgot₂ : env₂.getOrderTask = Except.error ())
    (env₃ : Env) (r₃ : HttpRequest) (req₃ trx₃ : UpdateTransactionRequest)
    (tasks₃ : List OrderTask)
    (hpre₃ : PassesPreGates hash serverKey env₃ r₃ req₃)
    (hgts₃ : env₃.getTransactionStatus = Except.ok trx₃)
    (hgot₃ : env₃.getOrderTask = Except.ok tasks₃)
    (htask₃ : (findPaymentTask tasks₃).state ≠ OrderTaskState.success)
    (hog₃ : env₃.orderGet = Except.error ())
    (env₄ : Env) (r₄ : HttpRequest) (req₄ trx₄ : UpdateTransactionRequest)
    (tasks₄ : List OrderTask) (order₄ : Order)
    (hreach₄ : ReachesClassification hash serverKey env₄ r₄ req₄ trx₄ tasks₄ order₄)
    (hs₄ : toLower trx₄.transactionStatus = ExpireTransactionStatus ∨
           toLower trx₄.transactionStatus = FailureTransactionStatus ∨
           toLower trx₄.transactionStatus = CancelTransactionStatus ∨
           toLower trx₄.transactionStatus = DenyTransactionStatus)
    (hupd₄ : env₄.updateOrderTaskOk OrderTaskState.failed = false) :
    ((HandleTransactionUpdate hash serverKey env₁ r₁).status = 400 ∧
     (HandleTransactionUpdate hash serverKey env₁ r₁).calledGetOrderTask = false ∧
     (HandleTransactionUpdate hash serverKey env₁ r₁).calledOrderGet = false ∧
     (HandleTransactionUpdate hash serverKey env₁ r₁).updateCalls = []) ∧
    (HandleTransactionUpdate hash serverKey env₂ r₂).status = 500 ∧
    (HandleTransactionUpdate hash serverKey env₃ r₃).status = 500 ∧
    (HandleTransactionUpdate hash serverKey env₄ r₄).status = 500 := by
  refine ⟨?_, ?_, ?_, ?_⟩
  · obtain ⟨hct, hbody, hsig, hpend, hinit⟩ := hpre₁
    simp only [HandleTransactionUpdate, hct, hbody, hsig, hinit, hgts₁,
      Option.isSome_none, Bool.false_eq_true, Bool.true_eq_false, if_false, if_neg hpend]
    exact ⟨trivial, trivial, trivial, trivial⟩
  · obtain ⟨hct, hbody, hsig, hpend, hinit⟩ := hpre₂
    simp only [HandleTransactionUpdate, hct, hbody, hsig, hinit, hgts₂, hgot₂,
      Option.isSome_none, Bool.false_eq_true, Bool.true_eq_false, if_false, if_neg hpend]
  · obtain ⟨hct, hbody, hsig, hpend, hinit⟩ := hpre₃
    simp only [HandleTransactionUpdate, hct, hbody, hsig, hinit, hgts₃, hgot₃, hog₃,
      Option.isSome_none, Bool.false_eq_true, Bool.true_eq_false, if_false, if_neg hpend]
    rw [if_neg htask₃]
  · rw [handle_eq_of_reaches hash serverKey env₄ r₄ req₄ trx₄ tasks₄ order₄ hreach₄]
    rw [classifyAndUpdate_failed env₄.updateOrderTaskOk trx₄
      (findPaymentTask tasks₄).taskId hs₄]
    simp [hupd₄]

/-- Witness for C8: a failing provider lookup yields 400 without further
calls; failing task, order and update RPCs each yield 500. -/
theorem C8_witness :
    ((HandleTransactionUpdate wHash wServerKey wEnvLookupFail (wPost wReq)).status = 400 ∧
     (HandleTransactionUpdate wHash wServerKey wEnvLookupFail
       (wPost wReq)).calledGetOrderTask = false ∧
     (HandleTransactionUpdate wHash wServerKey wEnvLookupFail
       (wPost wReq)).calledOrderGet = false ∧
     (HandleTransactionUpdate wHash wServerKey wEnvLookupFail (wPost wReq)).updateCalls = []) ∧
    (HandleTransactionUpdate wHash wServerKey wEnvTaskFail (wPost wReq)).status = 500 ∧
    (HandleTransactionUpdate wHash wServerKey wEnvOrderFail (wPost wReq)).status = 500 ∧
    (HandleTransactionUpdate wHash wServerKey wEnvExpireWriteFail (wPost wReq)).status = 500 :=
  C8_failure_status_codes wHash wServerKey
    wEnvLookupFail (wPost wReq) wReq
    ⟨by decide, rfl, by decide, by decide, by decide⟩ rfl
    wEnvTaskFail (wPost wReq) wReq wTrxSettle
    ⟨by decide, rfl, by decide, by decide, by decide⟩ rfl rfl
    wEnvOrderFail (wPost wReq) wReq wTrxSettle [wTask]
    ⟨by decide, rfl, by decide, by decide, by decide⟩ rfl rfl (by decide) rfl
    wEnvExpireWriteFail (wPost wReq) wReq wTrxExpire [wTask] wOrder
    ⟨⟨by decide, rfl, by decide, by decide, by decide⟩, rfl, rfl, by decide, rfl, by decide⟩
    (by decide) rfl

/-- C9: a run reaching the status classification with an authoritative
status outside the six actionable ones makes no UpdateOrderTask call and
is answered 200. -/
theorem C9_nonactionable_status_noop (hash : String → String) (serverKey : String)
    (env : Env) (r : HttpRequest) (req trx : UpdateTransactionRequest)
    (tasks : List OrderTask) (order : Order)
    (hreach : ReachesClassification hash serverKey env r req trx tasks order)
    (hother : toLower trx.transactionStatus ∉
      [CaptureTransactionStatus, SettlementTransactionStatus, ExpireTransactionStatus,
       FailureTransactionStatus, CancelTransactionStatus, DenyTransactionStatus]) :
    (HandleTransactionUpdate hash serverKey env r).updateCalls = [] ∧
    (HandleTransactionUpdate hash serverKey env r).status = 200 := by
  rw [handle_eq_of_reaches hash serverKey env r req trx tasks order hreach]
  rw [classifyAndUpdate_other env.updateOrderTaskOk trx (findPaymentTask tasks).taskId hother]
  exact ⟨rfl, rfl⟩

/-- Witness for C9: a refund notification leaves the task untouched and
answers 200. -/
theorem C9_witness :
    (HandleTransactionUpdate wHash wServerKey wEnvRefund (wPost wReq)).updateCalls = [] ∧
    (HandleTransactionUpdate wHash wServerKey wEnvRefund (wPost wReq)).status = 200 :=
  C9_nonactionable_status_noop wHash wServerKey wEnvRefund (wPost wReq) wReq wTrxRefund
    [wTask] wOrder
    ⟨⟨by decide, rfl, by decide, by decide, by decide⟩, rfl, rfl, by decide, rfl, by decide⟩
    (by decide)

/-- C10: the HTTP-method check only logs and falls through: a request
with any method produces exactly the observable effects of the same
request with method POST, the only difference being the logged error. -/
theorem C10_non_post_processed_identically (hash : String → String) (serverKey : String)
    (env : Env) (r : HttpRequest) (m : String) :
    ((HandleTransactionUpdate hash serverKey env { r with method := m }).effects =
      (HandleTransactionUpdate hash serverKey env { r with method := "POST" }).effects) ∧
    (HandleTransactionUpdate hash serverKey env { r with method := m }).methodErrorLogged =
      decide (m ≠ "POST") := by
  constructor
  · unfold HandleTransactionUpdate
    dsimp only
    repeat' split
    all_goals rfl
  · unfold HandleTransactionUpdate
    dsimp only
    repeat' split
    all_goals rfl

end Midtrans
